import Mathlib

/-
  Shallow embedding of the Bender episode-1 maze simulator (src/main.go).

  The Go program has two components:
  * `BenderSimulator` — the agent policy: direction priorities, obstacle
    backtracking, breaker mode, deferred priority inversion, loop detection.
  * `FSM` — the 2D grid state machine: current position, directional
    transitions guarded by a bounds check, and a pre/post callback pair
    invoked around every accepted move.

  Go's mutable structs become Lean structures with functional update; the
  callback protocol (which in Go mutates both the FSM, via the event's back
  pointer, and the simulator, via the callback arguments) is modelled by
  passing a combined `World` state through the callbacks.  Machine integers
  are modelled as `Int` (coordinates, counters) and `Nat` (list indices);
  Go panics are modelled by a distinguished result constructor.
-/

namespace BenderEp1

/-- Direction constant, Go `SOUTH = "SOUTH"`. -/
def SOUTH : String := "SOUTH"

/-- Direction constant, Go `NORTH = "NORTH"`. -/
def NORTH : String := "NORTH"

/-- Direction constant, Go `EAST = "EAST"`. -/
def EAST : String := "EAST"

/-- Direction constant, Go `WEST = "WEST"`. -/
def WEST : String := "WEST"

/-- Loop indicator constant, Go `LOOP = "LOOP"`. -/
def LOOP : String := "LOOP"

/-- Go struct `BenderSimulator` (src/main.go).  The Go `map[string]bool`
cache (whose values are always `true`) is modelled as the list of its keys;
`loopCnt` and `maxNumStates` are Go `int`, modelled as `Int`; `currDir` is a
list index, modelled as `Nat` (in Go it is a nonnegative `int`). -/
structure BenderSimulator where
  done : Bool
  breaker : Bool
  boom : Bool
  resetDir : Bool
  invertPrio : Bool
  currDir : Nat
  priorities : List String
  pathModifier : String
  path : List String
  cache : List String
  loopCnt : Int
  maxNumStates : Int
deriving Repr, DecidableEq

/-- Go `NewBenderSimulator`: fresh simulator with priorities
SOUTH, EAST, NORTH, WEST; all other fields are Go zero values. -/
def NewBenderSimulator (stateNum : Int) : BenderSimulator :=
  { done := false
    breaker := false
    boom := false
    resetDir := false
    invertPrio := false
    currDir := 0
    priorities := [SOUTH, EAST, NORTH, WEST]
    pathModifier := ""
    path := []
    cache := []
    loopCnt := 0
    maxNumStates := stateNum }

/-- Go method `Done`. -/
def BenderSimulator.Done (b : BenderSimulator) : Bool :=
  b.done

/-- Go method `Loop`: true iff `loopCnt > maxNumStates`. -/
def BenderSimulator.Loop (b : BenderSimulator) : Bool :=
  decide (b.loopCnt > b.maxNumStates)

/-- Go method `Direction`: the path modifier when set, otherwise
`priorities[currDir]`.  In Go an out-of-range `currDir` would panic; the
index is always in range for reachable states, and we use `getD` with a
default. -/
def BenderSimulator.Direction (b : BenderSimulator) : String :=
  if b.pathModifier ≠ "" then b.pathModifier
  else b.priorities.getD b.currDir ("")

/-- Go method `ShowPath`. -/
def BenderSimulator.ShowPath (b : BenderSimulator) : List String :=
  if b.Loop then [LOOP] else b.path

/-- Go method `Breaker`. -/
def BenderSimulator.Breaker (b : BenderSimulator) : Bool :=
  b.breaker

/-- Go method `InvertBreaker`: toggles the breaker flag. -/
def BenderSimulator.InvertBreaker (b : BenderSimulator) : BenderSimulator :=
  if b.breaker then { b with breaker := false } else { b with breaker := true }

/-- Go method `Reached`. -/
def BenderSimulator.Reached (b : BenderSimulator) : BenderSimulator :=
  { b with done := true }

/-- Go method `InvertPriorities`: toggles the pending-inversion flag. -/
def BenderSimulator.InvertPriorities (b : BenderSimulator) : BenderSimulator :=
  if b.invertPrio then { b with invertPrio := false }
  else { b with invertPrio := true }

/-- Go method `turnoverPriorities`: the in-place swap loop reverses the
priority list and clears the pending-inversion flag. -/
def BenderSimulator.turnoverPriorities (b : BenderSimulator) : BenderSimulator :=
  { b with priorities := b.priorities.reverse, invertPrio := false }

/-- Go method `Remember`: appends the direction to the path; a cached state
increments the loop counter, a novel state is cached and resets it to 0. -/
def BenderSimulator.Remember (b : BenderSimulator) (dir state : String) : BenderSimulator :=
  let b1 := { b with path := b.path ++ [dir] }
  if b1.cache.contains state then { b1 with loopCnt := b1.loopCnt + 1 }
  else { b1 with cache := state :: b1.cache, loopCnt := 0 }

/-- Go method `PathModifier` (setter for the override direction). -/
def BenderSimulator.PathModifier (b : BenderSimulator) (dir : String) : BenderSimulator :=
  { b with pathModifier := dir }

/-- Go method `NextDirection`: on the reset flag, back to index 0 and clear
the flag; otherwise cycle the index forward, wrapping after the last. -/
def BenderSimulator.NextDirection (b : BenderSimulator) : BenderSimulator :=
  if b.resetDir then { b with currDir := 0, resetDir := false }
  else if b.currDir + 1 ≥ b.priorities.length then { b with currDir := 0 }
  else { b with currDir := b.currDir + 1 }

/-- Go method `Boom`: records the obstacle hit, clears the override; if an
inversion is pending it reverses the priorities and arms the reset flag. -/
def BenderSimulator.Boom (b : BenderSimulator) : BenderSimulator :=
  let b1 := { b with boom := true, pathModifier := "" }
  if b1.invertPrio then { b1.turnoverPriorities with resetDir := true }
  else b1

/-- Go method `Hurts`. -/
def BenderSimulator.Hurts (b : BenderSimulator) : Bool :=
  b.boom

/-- Go method `BackOnTrack`: clears the obstacle flag and arms the reset
flag. -/
def BenderSimulator.BackOnTrack (b : BenderSimulator) : BenderSimulator :=
  { b with boom := false, resetDir := true }

/-- Go struct `Pair`: a pair of coordinates (x = column, y = row). -/
structure Pair where
  x : Int
  y : Int
deriving Repr, DecidableEq

/-- Go struct `FSM` (the 2D grid state machine): tile grid, current
position, teleport coordinates.  The Go struct also stores the two
callbacks; functions cannot live in a decidable structure, so the
callbacks are passed explicitly to `FSM.Event` below. -/
structure FSM where
  states : List (List Char)
  curr : Pair
  teleports : List Pair
deriving Repr, DecidableEq

/-- Go method `SetState`: unconditionally relocates the current position. -/
def FSM.SetState (f : FSM) (p : Pair) : FSM :=
  { f with curr := p }

/-- Go method `TeleportDst`: with exactly two teleports, maps the first to
the second and anything else to the first.  The Go `panic` on a grid not
holding exactly two teleports is modelled as `none`. -/
def FSM.TeleportDst (f : FSM) (ps : Pair) : Option Pair :=
  if f.teleports.length ≠ 2 then none
  else if (f.teleports.getD 0 ⟨0, 0⟩).x = ps.x ∧ (f.teleports.getD 0 ⟨0, 0⟩).y = ps.y then
    some (f.teleports.getD 1 ⟨0, 0⟩)
  else some (f.teleports.getD 0 ⟨0, 0⟩)

/-- The destination computed by Go `FSM.Event`'s switch: the unit-offset
neighbor for the four direction constants; any other event string leaves
the Go zero value `Pair{0, 0}`. -/
def FSM.eventDst (f : FSM) (evt : String) : Pair :=
  if evt = SOUTH then ⟨f.curr.x, f.curr.y + 1⟩
  else if evt = NORTH then ⟨f.curr.x, f.curr.y - 1⟩
  else if evt = EAST then ⟨f.curr.x + 1, f.curr.y⟩
  else if evt = WEST then ⟨f.curr.x - 1, f.curr.y⟩
  else ⟨0, 0⟩

/-- The bounds check of Go `FSM.Event`:
`dst.x < 0 || dst.x >= len(f.states[0]) || dst.y < 0 || dst.y >= len(f.states)`.
Go panics on an empty grid when reading `f.states[0]`; `headD` gives row
length 0 there, a case no claim exercises. -/
def FSM.outOfBounds (f : FSM) (p : Pair) : Bool :=
  decide (p.x < 0 ∨ p.x ≥ ((f.states.headD []).length : Int)
    ∨ p.y < 0 ∨ p.y ≥ (f.states.length : Int))

/-- The grid read `f.states[dst.y][dst.x]` of Go `FSM.Event`, total via
defaults (Go performs it only after the bounds check). -/
def FSM.stateAt (f : FSM) (p : Pair) : Char :=
  (f.states.getD p.y.toNat []).getD p.x.toNat ' '

/-- Go struct `Event` (the ephemeral transition event).  The Go fields
`FSM` (back pointer) and `Args` (which carry the `BenderSimulator`) are
represented by the `World` record threaded through the callbacks. -/
structure EventRec where
  Event : String
  Dst : Char
  dstC : Pair
  Cancelled : Bool
deriving Repr, DecidableEq

/-- Go method `Event.Cancel`. -/
def EventRec.Cancel (e : EventRec) : EventRec :=
  { e with Cancelled := true }

/-- Go method `Event.UniqueDst`: `fmt.Sprintf` of the tile value and the
destination coordinates. -/
def EventRec.UniqueDst (e : EventRec) : String :=
  String.mk [e.Dst] ++ toString e.dstC.x ++ toString e.dstC.y

/-- The combined mutable state the Go callbacks reach: the grid (via the
event's `FSM` back pointer) and the simulator (via the callback `Args`). -/
structure World where
  fsm : FSM
  bender : BenderSimulator
deriving Repr, DecidableEq

/-- Go method `Event.ChangeDst`: overwrites the destination tile in the
grid through the event's back pointer. -/
def EventRec.ChangeDst (e : EventRec) (w : World) (dst : Char) : World :=
  let row := (w.fsm.states.getD e.dstC.y.toNat []).set e.dstC.x.toNat dst
  { w with fsm := { w.fsm with states := w.fsm.states.set e.dstC.y.toNat row } }

/-- Result of one Go `FSM.Event` call.  `err dst` models the returned
error `fmt.Errorf` with the offending destination; `panicked msg` models a
Go panic raised inside the enter callback (teleport misconfiguration). -/
inductive StepResult where
  | ok (w : World)
  | err (dst : Pair)
  | panicked (msg : String)
deriving Repr, DecidableEq

/-- The event record Go `FSM.Event` constructs after the bounds check
passes: direction, destination tile value and coordinates, not yet
cancelled. -/
def FSM.mkEvent (f : FSM) (evt : String) : EventRec :=
  { Event := evt
    Dst := f.stateAt (f.eventDst evt)
    dstC := f.eventDst evt
    Cancelled := false }

/-- The callback-running tail of Go `FSM.Event` (everything after the
bounds check): run the before callback, stop with success if it cancelled,
otherwise commit the position (`f.curr = dst`) and run the enter callback;
an enter-callback panic propagates. -/
def FSM.runEvent (before : World → EventRec → World × EventRec)
    (enter : World → EventRec → Except String World)
    (w : World) (e : EventRec) : StepResult :=
  let r := before w e
  if r.2.Cancelled then StepResult.ok r.1
  else
    match enter { r.1 with fsm := r.1.fsm.SetState e.dstC } r.2 with
    | Except.ok w3 => StepResult.ok w3
    | Except.error m => StepResult.panicked m

/-- Go method `FSM.Event`: compute the destination from the direction,
fail on the bounds check, otherwise build the event and run the
callbacks. -/
def FSM.Event (before : World → EventRec → World × EventRec)
    (enter : World → EventRec → Except String World)
    (w : World) (evt : String) : StepResult :=
  let dst := w.fsm.eventDst evt
  if w.fsm.outOfBounds dst then StepResult.err dst
  else FSM.runEvent before enter w (w.fsm.mkEvent evt)

/-- Go function `beforeCallback` (the obstacle filter): a wall `#` records
the hit, advances the priority and cancels; a breakable obstacle `X` is
destroyed when breaker mode is on, else treated as a wall; anything else
passes through. -/
def beforeCallback (w : World) (e : EventRec) : World × EventRec :=
  match e.Dst with
  | '#' => ({ w with bender := w.bender.Boom.NextDirection }, e.Cancel)
  | 'X' =>
    if w.bender.Breaker then (e.ChangeDst w ' ', e)
    else ({ w with bender := w.bender.Boom.NextDirection }, e.Cancel)
  | _ => (w, e)

/-- Go function `enterCallback` (the tile-effect dispatch): clear the
obstacle flag when escaping, dispatch on the tile symbol, then record the
move.  The `error` result models the Go panic inside `TeleportDst`. -/
def enterCallback (w : World) (e : EventRec) : Except String World :=
  let b0 := if w.bender.Hurts then w.bender.BackOnTrack else w.bender
  let step : Except String (FSM × BenderSimulator) :=
    match e.Dst with
    | 'B' => Except.ok (w.fsm, b0.InvertBreaker)
    | 'S' => Except.ok (w.fsm, b0.PathModifier SOUTH)
    | 'N' => Except.ok (w.fsm, b0.PathModifier NORTH)
    | 'E' => Except.ok (w.fsm, b0.PathModifier EAST)
    | 'W' => Except.ok (w.fsm, b0.PathModifier WEST)
    | 'I' => Except.ok (w.fsm, b0.InvertPriorities)
    | 'T' =>
      match w.fsm.TeleportDst e.dstC with
      | some p => Except.ok (w.fsm.SetState p, b0)
      | none => Except.error ("teleports badly setup")
    | '$' => Except.ok (w.fsm, b0.Reached)
    | _ => Except.ok (w.fsm, b0)
  match step with
  | Except.ok (f, b) => Except.ok { fsm := f, bender := b.Remember e.Event e.UniqueDst }
  | Except.error m => Except.error m

/-- Iterated `Remember` of one fixed direction and state identifier. -/
def iterRemember (b : BenderSimulator) (dir state : String) : Nat → BenderSimulator
  | 0 => b
  | Nat.succ k => (iterRemember b dir state k).Remember dir state

/-- Concrete world for the C1 witness: 3x3 all-wall frame, agent at the
center. -/
def wC1 : World :=
  { fsm := { states := [['#', '#', '#'], ['#', '@', '#'], ['#', '#', '#']]
             curr := ⟨1, 1⟩, teleports := [] }
    bender := NewBenderSimulator 1 }

/-- Concrete world for the C2 witness: a single-cell grid, so every move
leaves the grid. -/
def wC2 : World :=
  { fsm := { states := [['@']], curr := ⟨0, 0⟩, teleports := [] }
    bender := NewBenderSimulator 1 }

/-- Concrete world for the C5 witness: the agent strictly inside a 4x3
grid with a free cell to its east. -/
def wC5 : World :=
  { fsm := { states := [['#', '#', '#', '#'], ['#', '@', ' ', '#'], ['#', '#', '#', '#']]
             curr := ⟨1, 1⟩, teleports := [] }
    bender := NewBenderSimulator 2 }

/-- Concrete world for the C8 witness: bordered 3x3 maze, corner tile is
a wall. -/
def wC8 : World :=
  { fsm := { states := [['#', '#', '#'], ['#', '@', '#'], ['#', '#', '#']]
             curr := ⟨1, 1⟩, teleports := [] }
    bender := NewBenderSimulator 1 }

/-- Concrete grid for the C7 witness: exactly two distinct teleports. -/
def fC7 : FSM :=
  { states := [], curr := ⟨0, 0⟩, teleports := [⟨1, 1⟩, ⟨3, 2⟩] }

/-- Concrete grid for the C7 witness: a lone teleport (misconfigured). -/
def fC7bad : FSM :=
  { states := [], curr := ⟨0, 0⟩, teleports := [⟨1, 1⟩] }

/-- Concrete simulator for the C3 witness: a pending inversion is armed. -/
def bC3 : BenderSimulator :=
  { NewBenderSimulator 2 with invertPrio := true }

/-- Concrete simulator for the C3 witness: no pending inversion. -/
def bC3n : BenderSimulator :=
  NewBenderSimulator 2

/-- Concrete simulator for the C6 witness: selection index 2, no reset
pending. -/
def bC6 : BenderSimulator :=
  { NewBenderSimulator 3 with currDir := 2 }

section Theorems

/-- Helper: `Boom` never touches the recorded path. -/
theorem Boom_path (b : BenderSimulator) : (b.Boom).path = b.path := by
  simp only [BenderSimulator.Boom, BenderSimulator.turnoverPriorities]
  split <;> rfl

/-- Helper: `NextDirection` never touches the recorded path. -/
theorem NextDirection_path (b : BenderSimulator) :
    (b.NextDirection).path = b.path := by
  simp only [BenderSimulator.NextDirection]
  split
  · rfl
  · split <;> rfl

/-- The before callback never moves the current position and never appends
to the path, whichever branch it takes. -/
theorem beforeCallback_frame (w : World) (e : EventRec) :
    ((beforeCallback w e).1).fsm.curr = w.fsm.curr ∧
    ((beforeCallback w e).1).bender.path = w.bender.path := by
  unfold beforeCallback
  split
  · exact ⟨rfl, by rw [NextDirection_path, Boom_path]⟩
  · split
    · exact ⟨rfl, rfl⟩
    · exact ⟨rfl, by rw [NextDirection_path, Boom_path]⟩
  · exact ⟨rfl, rfl⟩

/-- Claim C9: `InvertPriorities` toggles the pending-inversion flag, so two
consecutive calls (with no intervening obstacle hit) restore the whole
simulator state exactly — entering two invert-priority tiles in a row
cancels the pending inversion. -/
theorem invert_priorities_toggle (b : BenderSimulator) :
    (b.InvertPriorities).invertPrio = !b.invertPrio ∧
    b.InvertPriorities.InvertPriorities = b := by
  obtain ⟨d, br, bo, rd, ip, cd, pr, pm, pa, ca, lc, mn⟩ := b
  cases ip <;> simp [BenderSimulator.InvertPriorities]

/-- Claim C10: `BackOnTrack` clears the obstacle flag and arms the reset
flag, so the next `NextDirection` resets the selection index to 0
regardless of its current value — a pending inversion at an obstacle hit
is not the only way the reset flag gets armed. -/
theorem back_on_track_arms_reset (b : BenderSimulator) :
    (b.BackOnTrack).boom = false ∧ (b.BackOnTrack).resetDir = true ∧
    (b.BackOnTrack.NextDirection).currDir = 0 ∧
    (b.BackOnTrack.NextDirection).resetDir = false := by
  refine ⟨rfl, rfl, ?_, ?_⟩ <;>
    simp [BenderSimulator.BackOnTrack, BenderSimulator.NextDirection]

/-- Claim C3: calling `InvertPriorities` alone changes neither the priority
ordering nor the direction returned by `Direction`; the reversal plus the
retry-from-top flag is applied only at the next `Boom`, which also disarms
the pending-inversion flag; a `Boom` with no pending inversion leaves the
ordering alone. -/
theorem inversion_is_deferred (b : BenderSimulator) :
    (b.InvertPriorities).priorities = b.priorities ∧
    (b.InvertPriorities).Direction = b.Direction ∧
    (b.invertPrio = true → (b.Boom).priorities = b.priorities.reverse ∧
      (b.Boom).resetDir = true ∧ (b.Boom).invertPrio = false) ∧
    (b.invertPrio = false → (b.Boom).priorities = b.priorities ∧
      (b.Boom).invertPrio = false ∧ (b.Boom).resetDir = b.resetDir) := by
  refine ⟨?_, ?_, ?_, ?_⟩
  · unfold BenderSimulator.InvertPriorities
    split <;> rfl
  · unfold BenderSimulator.InvertPriorities BenderSimulator.Direction
    split <;> rfl
  · intro h
    simp [BenderSimulator.Boom, BenderSimulator.turnoverPriorities, h]
  · intro h
    simp [BenderSimulator.Boom, h]

/-- Claim C3 witness: with a pending inversion armed, `Boom` reverses the
priorities; arming alone leaves `Direction` unchanged; without a pending
inversion, `Boom` leaves the ordering alone. -/
theorem inversion_is_deferred_witness :
    (bC3.InvertPriorities).Direction = bC3.Direction ∧
    (bC3.Boom).priorities = bC3.priorities.reverse ∧
    (bC3n.Boom).priorities = bC3n.priorities :=
  ⟨(inversion_is_deferred bC3).2.1,
   ((inversion_is_deferred bC3).2.2.1 rfl).1,
   ((inversion_is_deferred bC3n).2.2.2 rfl).1⟩

/-- Claim C6: with the four-element ordering, no reset pending and an
in-range selection index, four consecutive `NextDirection` calls restore
the simulator exactly, hence also the direction `Direction` returns. -/
theorem priority_cycle_four (b : BenderSimulator)
    (hlen : b.priorities.length = 4) (hres : b.resetDir = false)
    (hcur : b.currDir < 4) :
    b.NextDirection.NextDirection.NextDirection.NextDirection = b ∧
    b.NextDirection.NextDirection.NextDirection.NextDirection.Direction
      = b.Direction := by
  have h4 : b.NextDirection.NextDirection.NextDirection.NextDirection = b := by
    obtain ⟨d, br, bo, rd, ip, cd, pr, pm, pa, ca, lc, mn⟩ := b
    dsimp only at hlen hres hcur
    subst hres
    interval_cases cd <;> simp [BenderSimulator.NextDirection, hlen]
  exact ⟨h4, by rw [h4]⟩

/-- Claim C6 witness: four advances from selection index 2 restore the
concrete simulator. -/
theorem priority_cycle_four_witness :
    bC6.NextDirection.NextDirection.NextDirection.NextDirection = bC6 ∧
    bC6.NextDirection.NextDirection.NextDirection.NextDirection.Direction
      = bC6.Direction :=
  priority_cycle_four bC6 (by decide) rfl (by decide)

/-- Claim C7: with exactly two configured teleports, `TeleportDst` maps
each of the two coordinates to the other; on a grid without exactly two
teleports it fails fatally (the Go panic, modelled as `none`). -/
theorem teleport_symmetric_fatal (f : FSM) (t0 t1 : Pair)
    (h : f.teleports = [t0, t1]) :
    f.TeleportDst t0 = some t1 ∧ f.TeleportDst t1 = some t0 ∧
    (∀ g : FSM, g.teleports.length ≠ 2 → ∀ p : Pair, g.TeleportDst p = none) := by
  refine ⟨?_, ?_, ?_⟩
  · simp [FSM.TeleportDst, h]
  · simp only [FSM.TeleportDst, h, List.length_cons, List.length_nil, List.getD]
    norm_num
    intro hx hy
    have : t0 = t1 := by
      cases t0; cases t1; simp_all
    simp [this]
  · intro g hg p
    simp [FSM.TeleportDst, hg]

/-- Claim C7 witness: the two concrete teleports resolve to each other,
and a lone-teleport grid fails fatally. -/
theorem teleport_symmetric_fatal_witness :
    fC7.TeleportDst ⟨1, 1⟩ = some ⟨3, 2⟩ ∧
    fC7.TeleportDst ⟨3, 2⟩ = some ⟨1, 1⟩ ∧
    fC7bad.TeleportDst ⟨0, 0⟩ = none :=
  ⟨(teleport_symmetric_fatal fC7 ⟨1, 1⟩ ⟨3, 2⟩ rfl).1,
   (teleport_symmetric_fatal fC7 ⟨1, 1⟩ ⟨3, 2⟩ rfl).2.1,
   (teleport_symmetric_fatal fC7 ⟨1, 1⟩ ⟨3, 2⟩ rfl).2.2 fC7bad (by decide) ⟨0, 0⟩⟩

/-- Claim C2: whenever the computed destination fails the bounds check,
`FSM.Event` returns the bounds error — for every choice of callbacks, so
neither callback is invoked and (the step being a pure function of the
unchanged input world) position and tiles are untouched. -/
theorem transition_bounds_failure
    (before : World → EventRec → World × EventRec)
    (enter : World → EventRec → Except String World)
    (w : World) (evt : String)
    (h : w.fsm.outOfBounds (w.fsm.eventDst evt) = true) :
    FSM.Event before enter w evt = StepResult.err (w.fsm.eventDst evt) := by
  simp [FSM.Event, h]

/-- Claim C2 witness: moving south off the single-cell grid yields the
bounds error. -/
theorem transition_bounds_failure_witness :
    FSM.Event beforeCallback enterCallback wC2 SOUTH = StepResult.err ⟨0, 1⟩ :=
  transition_bounds_failure beforeCallback enterCallback wC2 SOUTH (by decide)

/-- Claim C1: for an in-bounds destination, if the (real) before callback
cancels the event then `FSM.Event` with the policy callbacks returns
success carrying exactly the before callback's output world — the enter
callback is never applied — and that world keeps the original position and
the original path (no `Remember` entry). -/
theorem transition_cancelled_is_frame (w : World) (evt : String)
    (hin : w.fsm.outOfBounds (w.fsm.eventDst evt) = false)
    (hcan : ((beforeCallback w (w.fsm.mkEvent evt)).2).Cancelled = true) :
    FSM.Event beforeCallback enterCallback w evt =
      StepResult.ok ((beforeCallback w (w.fsm.mkEvent evt)).1) ∧
    ((beforeCallback w (w.fsm.mkEvent evt)).1).fsm.curr = w.fsm.curr ∧
    ((beforeCallback w (w.fsm.mkEvent evt)).1).bender.path = w.bender.path := by
  have hf := beforeCallback_frame w (w.fsm.mkEvent evt)
  refine ⟨?_, hf.1, hf.2⟩
  simp [FSM.Event, FSM.runEvent, hin, hcan]

/-- Claim C1 witness: stepping into the wall south of the agent is
cancelled, keeps position and path, and returns success. -/
theorem transition_cancelled_is_frame_witness :
    FSM.Event beforeCallback enterCallback wC1 SOUTH =
      StepResult.ok ((beforeCallback wC1 (wC1.fsm.mkEvent SOUTH)).1) ∧
    ((beforeCallback wC1 (wC1.fsm.mkEvent SOUTH)).1).fsm.curr = wC1.fsm.curr ∧
    ((beforeCallback wC1 (wC1.fsm.mkEvent SOUTH)).1).bender.path = wC1.bender.path :=
  transition_cancelled_is_frame wC1 SOUTH (by decide) (by decide)

/-- Claim C8: an event string that is none of the four direction constants
leaves the Go zero-value destination `(0, 0)`; on a non-empty grid that
destination passes the bounds check, so instead of an error the callbacks
are run on the tile at `(0, 0)`. -/
theorem nondirection_event_goes_to_origin
    (before : World → EventRec → World × EventRec)
    (enter : World → EventRec → Except String World)
    (w : World) (evt : String)
    (hdir : evt ∉ ([SOUTH, NORTH, EAST, WEST] : List String))
    (hrows : 0 < w.fsm.states.length)
    (hcols : 0 < (w.fsm.states.headD []).length) :
    w.fsm.eventDst evt = ⟨0, 0⟩ ∧
    FSM.Event before enter w evt =
      FSM.runEvent before enter w
        { Event := evt, Dst := w.fsm.stateAt ⟨0, 0⟩, dstC := ⟨0, 0⟩
          Cancelled := false } ∧
    (∀ p : Pair, FSM.Event before enter w evt ≠ StepResult.err p) := by
  simp only [List.mem_cons, List.not_mem_nil, or_false, not_or] at hdir
  obtain ⟨h1, h2, h3, h4⟩ := hdir
  have hdst : w.fsm.eventDst evt = ⟨0, 0⟩ := by
    unfold FSM.eventDst
    rw [if_neg h1, if_neg h2, if_neg h3, if_neg h4]
  have hoob : w.fsm.outOfBounds (⟨0, 0⟩ : Pair) = false := by
    simp only [FSM.outOfBounds, decide_eq_false_iff_not, not_or, not_lt, not_le]
    omega
  have hev : FSM.Event before enter w evt =
      FSM.runEvent before enter w
        { Event := evt, Dst := w.fsm.stateAt ⟨0, 0⟩, dstC := ⟨0, 0⟩
          Cancelled := false } := by
    simp [FSM.Event, FSM.mkEvent, hdst, hoob]
  refine ⟨hdst, hev, ?_⟩
  intro p
  rw [hev]
  simp only [FSM.runEvent]
  split
  · simp
  · split <;> simp

/-- Claim C8 witness: the non-direction event `LOOP` on the bordered 3x3
maze resolves to the wall corner `(0, 0)` and does not fail the bounds
check. -/
theorem nondirection_event_goes_to_origin_witness :
    wC8.fsm.eventDst LOOP = ⟨0, 0⟩ ∧
    FSM.Event beforeCallback enterCallback wC8 LOOP =
      FSM.runEvent beforeCallback enterCallback wC8
        { Event := LOOP, Dst := wC8.fsm.stateAt ⟨0, 0⟩, dstC := ⟨0, 0⟩
          Cancelled := false } ∧
    (∀ p : Pair,
      FSM.Event beforeCallback enterCallback wC8 LOOP ≠ StepResult.err p) :=
  nondirection_event_goes_to_origin beforeCallback enterCallback wC8 LOOP
    (by decide) (by decide) (by decide)

/-- Claim C5: for each of the four directions from a position strictly
inside the grid, the computed destination is the unit-offset neighbor
(south `(x, y+1)`, north `(x, y-1)`, east `(x+1, y)`, west `(x-1, y)`),
and when the before callback does not cancel, `FSM.Event` commits exactly
that neighbor as the position handed to the enter callback (stated for any
enter callback that succeeds without relocating, as the real one does on
every tile but a teleport). -/
theorem transition_neighbor_arithmetic
    (before : World → EventRec → World × EventRec)
    (enter : World → EventRec → Except String World)
    (henter : ∀ w e, ∃ w', enter w e = Except.ok w' ∧ w'.fsm.curr = w.fsm.curr)
    (w : World) (d : String)
    (hd : d = SOUTH ∨ d = NORTH ∨ d = EAST ∨ d = WEST)
    (hx : 0 < w.fsm.curr.x ∧ w.fsm.curr.x + 1 < ((w.fsm.states.headD []).length : Int))
    (hy : 0 < w.fsm.curr.y ∧ w.fsm.curr.y + 1 < (w.fsm.states.length : Int))
    (hnc : ((before w (w.fsm.mkEvent d)).2).Cancelled = false) :
    (d = SOUTH → w.fsm.eventDst d = ⟨w.fsm.curr.x, w.fsm.curr.y + 1⟩) ∧
    (d = NORTH → w.fsm.eventDst d = ⟨w.fsm.curr.x, w.fsm.curr.y - 1⟩) ∧
    (d = EAST → w.fsm.eventDst d = ⟨w.fsm.curr.x + 1, w.fsm.curr.y⟩) ∧
    (d = WEST → w.fsm.eventDst d = ⟨w.fsm.curr.x - 1, w.fsm.curr.y⟩) ∧
    (∃ w', FSM.Event before enter w d = StepResult.ok w' ∧
      w'.fsm.curr = w.fsm.eventDst d) := by
  have hS : d = SOUTH → w.fsm.eventDst d = ⟨w.fsm.curr.x, w.fsm.curr.y + 1⟩ := by
    intro h; subst h; simp [FSM.eventDst]
  have hN : d = NORTH → w.fsm.eventDst d = ⟨w.fsm.curr.x, w.fsm.curr.y - 1⟩ := by
    intro h; subst h; simp [FSM.eventDst, NORTH, SOUTH]
  have hE : d = EAST → w.fsm.eventDst d = ⟨w.fsm.curr.x + 1, w.fsm.curr.y⟩ := by
    intro h; subst h; simp [FSM.eventDst, EAST, SOUTH, NORTH]
  have hW : d = WEST → w.fsm.eventDst d = ⟨w.fsm.curr.x - 1, w.fsm.curr.y⟩ := by
    intro h; subst h; simp [FSM.eventDst, WEST, SOUTH, NORTH, EAST]
  have hoob : w.fsm.outOfBounds (w.fsm.eventDst d) = false := by
    rcases hd with h | h | h | h
    · rw [hS h]
      simp only [FSM.outOfBounds, decide_eq_false_iff_not, not_or, not_lt, not_le]
      omega
    · rw [hN h]
      simp only [FSM.outOfBounds, decide_eq_false_iff_not, not_or, not_lt, not_le]
      omega
    · rw [hE h]
      simp only [FSM.outOfBounds, decide_eq_false_iff_not, not_or, not_lt, not_le]
      omega
    · rw [hW h]
      simp only [FSM.outOfBounds, decide_eq_false_iff_not, not_or, not_lt, not_le]
      omega
  refine ⟨hS, hN, hE, hW, ?_⟩
  obtain ⟨w', he, hc⟩ := henter
    { (before w (w.fsm.mkEvent d)).1 with
        fsm := (before w (w.fsm.mkEvent d)).1.fsm.SetState ((w.fsm.mkEvent d).dstC) }
    (before w (w.fsm.mkEvent d)).2
  refine ⟨w', ?_, ?_⟩
  · simp [FSM.Event, FSM.runEvent, hoob, hnc, he]
  · rw [hc]; rfl

/-- Claim C5 witness: from the interior cell, the east move of the real
before callback is not cancelled and the committed position is the east
neighbor. -/
theorem transition_neighbor_arithmetic_witness :
    ∃ w', FSM.Event beforeCallback (fun w _ => Except.ok w) wC5 EAST =
      StepResult.ok w' ∧ w'.fsm.curr = wC5.fsm.eventDst EAST :=
  (transition_neighbor_arithmetic beforeCallback (fun w _ => Except.ok w)
    (fun w e => ⟨w, rfl, rfl⟩) wC5 EAST (by decide) (by decide) (by decide)
    (by decide)).2.2.2.2

/-- Helper: `Remember` of a state not yet in the cache: appends the direction,
caches the state, resets the counter. -/
theorem remember_novel (b : BenderSimulator) (dir s : String)
    (h : b.cache.contains s = false) :
    b.Remember dir s =
      { b with path := b.path ++ [dir], cache := s :: b.cache, loopCnt := 0 } := by
  have hm : s ∉ b.cache := by simpa using h
  simp [BenderSimulator.Remember, h, hm]

/-- Helper: `Remember` of a cached state: appends the direction and increments the
counter. -/
theorem remember_seen (b : BenderSimulator) (dir s : String)
    (h : b.cache.contains s = true) :
    b.Remember dir s =
      { b with path := b.path ++ [dir], loopCnt := b.loopCnt + 1 } := by
  have hm : s ∈ b.cache := by simpa using h
  simp [BenderSimulator.Remember, h, hm]

/-- Iterating `Remember` on an already-cached state adds the iteration
count to the loop counter and changes neither the cache nor the
threshold. -/
theorem iterRemember_seen (b : BenderSimulator) (dir s : String)
    (h : b.cache.contains s = true) (k : Nat) :
    (iterRemember b dir s k).loopCnt = b.loopCnt + k ∧
    (iterRemember b dir s k).cache = b.cache ∧
    (iterRemember b dir s k).maxNumStates = b.maxNumStates := by
  induction k with
  | zero => simp [iterRemember]
  | succ k ih =>
    obtain ⟨h1, h2, h3⟩ := ih
    have hc : (iterRemember b dir s k).cache.contains s = true := by
      rw [h2]; exact h
    rw [iterRemember, remember_seen _ _ _ hc]
    refine ⟨?_, by simpa using h2, by simpa using h3⟩
    simp only [h1]
    push_cast
    ring

/-- Peeling one `Remember` off the front of the iteration. -/
theorem iterRemember_shift (b : BenderSimulator) (dir s : String) (k : Nat) :
    iterRemember b dir s (k + 1) = iterRemember (b.Remember dir s) dir s k := by
  induction k with
  | zero => rfl
  | succ k ih =>
    rw [iterRemember, ih, iterRemember]

/-- Claim C4 counterexample: with threshold 1, recording the same unique
state identifier threshold + 1 = 2 times consecutively on a freshly
constructed simulator leaves `Loop` false (the first record is novel and
resets the counter), contradicting the claim that it becomes true. -/
theorem loop_threshold_claim_false :
    (iterRemember (NewBenderSimulator 1) SOUTH ("s11") 2).Loop = false := by
  decide

/-- Claim C4, amended: on a freshly constructed simulator the same unique
state identifier must be recorded threshold + 2 times consecutively (the
novel first record plus threshold + 1 revisits) for `Loop` to turn true,
while threshold + 1 consecutive records leave it false; and in general a
novel state resets the consecutive-revisit counter to zero while a repeat
increments it. -/
theorem loop_threshold_corrected (n : Nat) (dir s : String) :
    (iterRemember (NewBenderSimulator (n : Int)) dir s (n + 2)).Loop = true ∧
    (iterRemember (NewBenderSimulator (n : Int)) dir s (n + 1)).Loop = false ∧
    (∀ b : BenderSimulator, b.cache.contains s = false →
      (b.Remember dir s).loopCnt = 0) ∧
    (∀ b : BenderSimulator, b.cache.contains s = true →
      (b.Remember dir s).loopCnt = b.loopCnt + 1) := by
  have hfresh : (NewBenderSimulator (n : Int)).cache.contains s = false := rfl
  have hb1 : (NewBenderSimulator (n : Int)).Remember dir s =
      { NewBenderSimulator (n : Int) with
          path := [dir], cache := [s], loopCnt := 0 } := by
    rw [remember_novel _ _ _ hfresh]
    rfl
  have hc1 : ((NewBenderSimulator (n : Int)).Remember dir s).cache.contains s
      = true := by
    rw [hb1]
    simp [NewBenderSimulator]
  refine ⟨?_, ?_, ?_, ?_⟩
  · rw [show n + 2 = (n + 1) + 1 by ring, iterRemember_shift]
    have hit := iterRemember_seen _ dir s hc1 (n + 1)
    simp only [BenderSimulator.Loop, decide_eq_true_eq]
    rw [hit.1, hit.2.2, hb1]
    simp only [NewBenderSimulator]
    omega
  · rw [show n + 1 = n + 1 by rfl, iterRemember_shift]
    have hit := iterRemember_seen _ dir s hc1 n
    simp only [BenderSimulator.Loop, decide_eq_false_iff_not, not_lt]
    rw [hit.1, hit.2.2, hb1]
    simp only [NewBenderSimulator]
    omega
  · intro b hb
    rw [remember_novel _ _ _ hb]
  · intro b hb
    rw [remember_seen _ _ _ hb]

/-- Claim C4 (amended) witness: with threshold 1, three consecutive
records of one identifier trip `Loop`, two do not; a repeat of a cached
identifier increments the counter. -/
theorem loop_threshold_corrected_witness :
    (iterRemember (NewBenderSimulator ((1 : Nat) : Int)) SOUTH ("a") 3).Loop
      = true ∧
    (iterRemember (NewBenderSimulator ((1 : Nat) : Int)) SOUTH ("a") 2).Loop
      = false ∧
    ({ NewBenderSimulator 1 with cache := ["a"] }.Remember SOUTH ("a")).loopCnt
      = { NewBenderSimulator 1 with cache := ["a"] }.loopCnt + 1 :=
  ⟨(loop_threshold_corrected 1 SOUTH ("a")).1,
   (loop_threshold_corrected 1 SOUTH ("a")).2.1,
   (loop_threshold_corrected 1 SOUTH ("a")).2.2.2
     { NewBenderSimulator 1 with cache := ["a"] } (by decide)⟩

end Theorems

end BenderEp1
